import Mathlib

/-!
Verification of the personal-expense-tracker core logic.

Shallow embedding of the domain layer of the repository (`app/crud.py`,
`app/auth.py`, `app/models.py`): the relational store is a record of lists,
monetary values are rationals, the `round(x, n)` of Python is modelled as
round-half-to-even at `n` decimal places, and calendar dates are explicit
(year, month, day) triples compared lexicographically, as Python `date`
objects are.  Functions that raise `HTTPException` are modelled as returning
an `Except ApiError` value paired with the (unchanged or updated) store.
-/

namespace ExpenseTracker

/-- A calendar date (`datetime.date`): compared field-lexicographically. -/
structure DDate where
  year : Int
  month : Int
  day : Int
deriving DecidableEq

/-- Python date ordering `a <= b`: lexicographic on (year, month, day). -/
def dle (a b : DDate) : Bool :=
  decide (a.year < b.year) ||
    (decide (a.year = b.year) &&
      (decide (a.month < b.month) ||
        (decide (a.month = b.month) && decide (a.day ≤ b.day))))

/-- Gregorian leap year test, as used by `calendar.monthrange`. -/
def isLeap (y : Int) : Bool :=
  (y % 4 == 0 && y % 100 != 0) || (y % 400 == 0)

/-- Number of days of month `m` of year `y` (`calendar.monthrange(y, m)[1]`). -/
def daysInMonth (y m : Int) : Int :=
  if m == 2 then (if isLeap y then 29 else 28)
  else if m == 4 || m == 6 || m == 9 || m == 11 then 30
  else 31

/-- English month name, as produced by `date.strftime("%B")`. -/
def monthName (m : Int) : String :=
  if m == 1 then "January" else if m == 2 then "February"
  else if m == 3 then "March" else if m == 4 then "April"
  else if m == 5 then "May" else if m == 6 then "June"
  else if m == 7 then "July" else if m == 8 then "August"
  else if m == 9 then "September" else if m == 10 then "October"
  else if m == 11 then "November" else if m == 12 then "December"
  else ""

/-- Python `round(q, 2)`: round half to even at two decimal places.
`roundHalfEven` is the integer-valued rounding. -/
def roundHalfEven (q : ℚ) : ℤ :=
  let n := ⌊q⌋
  let frac := q - n
  if frac < 1 / 2 then n
  else if 1 / 2 < frac then n + 1
  else if n % 2 = 0 then n else n + 1

/-- Model of `round(q, 2)` on rationals. -/
def round2 (q : ℚ) : ℚ := (roundHalfEven (q * 100) : ℚ) / 100

/-- Model of `round(q, 1)` on rationals. -/
def round1 (q : ℚ) : ℚ := (roundHalfEven (q * 10) : ℚ) / 10

/-- Row of the `users` table (`models.User`). -/
structure User where
  user_id : Int
  username : String
  email : String
  hashed_password : String
  full_name : Option String
deriving DecidableEq

/-- Row of the `categories` table (`models.Category`). -/
structure Category where
  category_id : Int
  name : String
  type : String
deriving DecidableEq

/-- Row of the `transactions` table (`models.Transaction`). -/
structure Transaction where
  transaction_id : Int
  amount : ℚ
  type : String
  description : Option String
  transaction_date : DDate
  category_id : Int
deriving DecidableEq

/-- Row of the `budgets` table (`models.Budget`). -/
structure Budget where
  budget_id : Int
  category_id : Int
  amount : ℚ
  period : String
deriving DecidableEq

/-- The relational store: the four tables plus autoincrement counters. -/
structure State where
  users : List User
  categories : List Category
  transactions : List Transaction
  budgets : List Budget
  next_user_id : Int
  next_category_id : Int
  next_transaction_id : Int
  next_budget_id : Int
deriving DecidableEq

/-- An `HTTPException`: status code and detail message. -/
structure ApiError where
  status : Nat
  detail : String
deriving DecidableEq

/-- Status code of a result, when it is an error. -/
def errorStatus {α : Type} : Except ApiError α → Option Nat
  | .error e => some e.status
  | .ok _ => none

/-- Request body of `POST /categories/` (`schemas.CategoryCreate`). -/
structure CategoryCreate where
  name : String
  type : String
deriving DecidableEq

/-- Request body of `POST /transactions/` (`schemas.TransactionCreate`). -/
structure TransactionCreate where
  amount : ℚ
  type : String
  description : Option String
  transaction_date : DDate
  category_id : Int
deriving DecidableEq

/-- Request body of `PUT /transactions/{id}` (`schemas.TransactionUpdate`):
every field optional, `none` meaning "not supplied" (`exclude_unset`). -/
structure TransactionUpdate where
  amount : Option ℚ
  type : Option String
  description : Option (Option String)
  transaction_date : Option DDate
  category_id : Option Int
deriving DecidableEq

/-- Request body of `POST /budgets/` (`schemas.BudgetCreate`). -/
structure BudgetCreate where
  category_id : Int
  amount : ℚ
  period : String
deriving DecidableEq

/-- Model of `crud.get_category`: first category row with the given id. -/
def get_category (s : State) (category_id : Int) : Option Category :=
  s.categories.find? (fun c => c.category_id == category_id)

/-- Model of `crud.create_category`: reject a duplicate name with a 400, otherwise
insert the row with a fresh id. -/
def create_category (s : State) (cc : CategoryCreate) :
    Except ApiError Category × State :=
  match s.categories.find? (fun c => c.name == cc.name) with
  | some _ =>
      (.error ⟨400, "Category " ++ cc.name ++ " already exists"⟩, s)
  | none =>
      let c : Category := ⟨s.next_category_id, cc.name, cc.type⟩
      (.ok c, { s with categories := s.categories ++ [c],
                       next_category_id := s.next_category_id + 1 })

/-- Model of `crud.create_transaction`: 400 when the category does not resolve,
otherwise insert the row with a fresh id. -/
def create_transaction (s : State) (tc : TransactionCreate) :
    Except ApiError Transaction × State :=
  match get_category s tc.category_id with
  | none =>
      (.error ⟨400, "Category with ID " ++ toString tc.category_id ++ " not found"⟩, s)
  | some _ =>
      let t : Transaction :=
        ⟨s.next_transaction_id, tc.amount, tc.type, tc.description,
          tc.transaction_date, tc.category_id⟩
      (.ok t, { s with transactions := s.transactions ++ [t],
                       next_transaction_id := s.next_transaction_id + 1 })

/-- The filter chain of `crud.get_transactions`.  Each `if <arg>:` in the
Python source adds its clause only when the argument is truthy, so `None`
and the falsy values `0` (for `category_id`) and the empty string (for
`transaction_type`) leave the clause out. -/
def txMatches (start_date end_date : Option DDate) (category_id : Option Int)
    (transaction_type : Option String) (t : Transaction) : Bool :=
  (match start_date with
   | none => true
   | some d => dle d t.transaction_date) &&
  (match end_date with
   | none => true
   | some d => dle t.transaction_date d) &&
  (match category_id with
   | none => true
   | some c => if c == 0 then true else t.category_id == c) &&
  (match transaction_type with
   | none => true
   | some ty => if ty == "" then true else t.type == ty)

/-- Insert a transaction into a list kept in descending `transaction_date`
order (model of the SQL `ORDER BY transaction_date DESC`). -/
def insertDesc (t : Transaction) : List Transaction → List Transaction
  | [] => [t]
  | e :: es =>
      if dle t.transaction_date e.transaction_date then e :: insertDesc t es
      else t :: e :: es

/-- Sort transactions by `transaction_date` descending. -/
def sortDesc (l : List Transaction) : List Transaction :=
  l.foldr insertDesc []

/-- Model of `crud.get_transactions`: filter, order by date descending, then
paginate with `offset skip`/`limit`. -/
def get_transactions (s : State) (skip limit : Nat)
    (start_date end_date : Option DDate) (category_id : Option Int)
    (transaction_type : Option String) : List Transaction :=
  (((sortDesc (s.transactions.filter
      (txMatches start_date end_date category_id transaction_type))).drop skip).take limit)

/-- Apply the supplied fields of a partial update to a transaction row
(the `setattr` loop of `crud.update_transaction`). -/
def applyUpd (u : TransactionUpdate) (t : Transaction) : Transaction :=
  { t with
    amount := u.amount.getD t.amount
    type := u.type.getD t.type
    description := u.description.getD t.description
    transaction_date := u.transaction_date.getD t.transaction_date
    category_id := u.category_id.getD t.category_id }

/-- Replace the first transaction with the given id by its updated value
(mutating the ORM row found by `get_transaction`). -/
def updateFirstTx : List Transaction → Int → TransactionUpdate → List Transaction
  | [], _, _ => []
  | t :: ts, tid, u =>
      if t.transaction_id == tid then applyUpd u t :: ts
      else t :: updateFirstTx ts tid u

/-- Model of `crud.update_transaction`: 404 when the id is absent; 400 when a
supplied `category_id` does not resolve; otherwise mutate exactly the
supplied fields of the found row. -/
def update_transaction (s : State) (tid : Int) (u : TransactionUpdate) :
    Except ApiError Transaction × State :=
  match s.transactions.find? (fun t => t.transaction_id == tid) with
  | none =>
      (.error ⟨404, "Transaction with ID " ++ toString tid ++ " not found"⟩, s)
  | some t =>
      match u.category_id with
      | some c =>
          match get_category s c with
          | none =>
              (.error ⟨400, "Category with ID " ++ toString c ++ " not found"⟩, s)
          | some _ =>
              (.ok (applyUpd u t),
               { s with transactions := updateFirstTx s.transactions tid u })
      | none =>
          (.ok (applyUpd u t),
           { s with transactions := updateFirstTx s.transactions tid u })

/-- Replace the first budget of the given category by one carrying the new
amount and period (mutating the ORM row found by `.first()`). -/
def updateFirstBudget : List Budget → Int → ℚ → String → List Budget
  | [], _, _, _ => []
  | b :: bs, cid, a, per =>
      if b.category_id == cid then { b with amount := a, period := per } :: bs
      else b :: updateFirstBudget bs cid a per

/-- Model of `crud.create_or_update_budget`: 400 when the category is missing or not
an EXPENSE category; update the existing budget of that category in place
when there is one, otherwise insert a new row with a fresh id. -/
def create_or_update_budget (s : State) (bc : BudgetCreate) :
    Except ApiError Budget × State :=
  match get_category s bc.category_id with
  | none =>
      (.error ⟨400, "Category with ID " ++ toString bc.category_id ++ " not found"⟩, s)
  | some cat =>
      if cat.type != "EXPENSE" then
        (.error ⟨400, "Budgets can only be set for expense categories"⟩, s)
      else
        match s.budgets.find? (fun b => b.category_id == bc.category_id) with
        | some existing =>
            (.ok { existing with amount := bc.amount, period := bc.period },
             { s with budgets :=
                 updateFirstBudget s.budgets bc.category_id bc.amount bc.period })
        | none =>
            let nb : Budget := ⟨s.next_budget_id, bc.category_id, bc.amount, bc.period⟩
            (.ok nb, { s with budgets := s.budgets ++ [nb],
                              next_budget_id := s.next_budget_id + 1 })

/-- Sum of the amounts of a list of transaction rows. -/
def sumAmounts (l : List Transaction) : ℚ :=
  (l.map (fun t => t.amount)).sum

/-- The optional inclusive date filter shared by the analytics queries
(`transaction_date >= start_date`, `transaction_date <= end_date`; a bound
is applied only when supplied — `date` objects are always truthy). -/
def dateFilter (start_date end_date : Option DDate) (t : Transaction) : Bool :=
  (match start_date with
   | none => true
   | some d => dle d t.transaction_date) &&
  (match end_date with
   | none => true
   | some d => dle t.transaction_date d)

/-- Response of `GET /analytics/summary` (`schemas.SummaryResponse`). -/
structure SummaryResponse where
  total_income : ℚ
  total_expenses : ℚ
  balance : ℚ
  transaction_count : Nat
deriving DecidableEq

/-- Model of `crud.get_summary`: filter by the optional date range, sum the INCOME
and EXPENSE amounts separately, round each output to two decimals. -/
def get_summary (s : State) (start_date end_date : Option DDate) :
    SummaryResponse :=
  let transactions := s.transactions.filter (dateFilter start_date end_date)
  let total_income := sumAmounts (transactions.filter (fun t => t.type == "INCOME"))
  let total_expenses := sumAmounts (transactions.filter (fun t => t.type == "EXPENSE"))
  { total_income := round2 total_income
    total_expenses := round2 total_expenses
    balance := round2 (total_income - total_expenses)
    transaction_count := transactions.length }

/-- Entry of the `GET /budgets/` response (`schemas.BudgetStatus`). -/
structure BudgetStatus where
  budget_id : Int
  category_id : Int
  category_name : String
  budget_amount : ℚ
  spent_amount : ℚ
  remaining : ℚ
  percentage_used : ℚ
  is_over_budget : Bool
deriving DecidableEq

/-- First day of the month of `today`. -/
def monthStart (today : DDate) : DDate := ⟨today.year, today.month, 1⟩

/-- Last day of the month of `today` (via `monthrange`). -/
def monthEnd (today : DDate) : DDate :=
  ⟨today.year, today.month, daysInMonth today.year today.month⟩

/-- The date-defaulting step of `crud.get_budgets_with_status`: when either
bound is missing, each missing bound (independently) is replaced by the
corresponding boundary of the current month; a supplied bound is kept
(`start_date or ...` — a `date` is always truthy). -/
def resolveRange (today : DDate) (start_date end_date : Option DDate) :
    DDate × DDate :=
  match start_date, end_date with
  | some sd, some ed => (sd, ed)
  | sd, ed => (sd.getD (monthStart today), ed.getD (monthEnd today))

/-- Spend of a category inside an inclusive date range:
`SUM(amount) WHERE category_id = cid AND date BETWEEN sd AND ed`, with
`NULL` (no rows) collapsing to `0.0` via `or 0.0`. -/
def spentSum (s : State) (cid : Int) (sd ed : DDate) : ℚ :=
  sumAmounts (s.transactions.filter
    (fun t => t.category_id == cid && dle sd t.transaction_date &&
              dle t.transaction_date ed))

/-- The per-budget body of the loop in `crud.get_budgets_with_status`. -/
def budgetStatusFor (s : State) (sd ed : DDate) (b : Budget) : BudgetStatus :=
  let category := get_category s b.category_id
  let spent := spentSum s b.category_id sd ed
  let remaining := b.amount - spent
  let percentage := if 0 < b.amount then spent / b.amount * 100 else 0
  { budget_id := b.budget_id
    category_id := b.category_id
    category_name := match category with
      | some c => c.name
      | none => "Unknown"
    budget_amount := b.amount
    spent_amount := round2 spent
    remaining := round2 remaining
    percentage_used := round1 percentage
    is_over_budget := decide (b.amount < spent) }

/-- Model of `crud.get_budgets_with_status`: resolve the date range, then map every
budget row to its status.  `today` stands for `date.today()`. -/
def get_budgets_with_status (s : State) (today : DDate)
    (start_date end_date : Option DDate) : List BudgetStatus :=
  let r := resolveRange today start_date end_date
  s.budgets.map (budgetStatusFor s r.1 r.2)

/-- Entry of the `GET /analytics/monthly-trend` response
(`schemas.MonthlyTrend`). -/
structure MonthlyTrend where
  month : String
  year : Int
  income : ℚ
  expenses : ℚ
  balance : ℚ
deriving DecidableEq

/-- The `while month <= 0: month += 12; year -= 1` normalisation loop of
`crud.get_monthly_trend`, on the pair (month, year). -/
def normalizeMonth (month year : Int) : Int × Int :=
  if h : month ≤ 0 then normalizeMonth (month + 12) (year - 1)
  else (month, year)
termination_by (1 - month).toNat
decreasing_by omega

/-- The (month, year) pair examined `i` months before `today`. -/
def trendMonthYear (today : DDate) (i : Nat) : Int × Int :=
  normalizeMonth (today.month - (i : Int)) today.year

/-- Transactions dated inside calendar month `m` of year `y`. -/
def monthTxs (s : State) (y m : Int) : List Transaction :=
  s.transactions.filter
    (fun t => dle ⟨y, m, 1⟩ t.transaction_date &&
              dle t.transaction_date ⟨y, m, daysInMonth y m⟩)

/-- The per-month body of the loop in `crud.get_monthly_trend`: the entry
for the month `i` steps before `today`. -/
def trendCell (s : State) (today : DDate) (i : Nat) : MonthlyTrend :=
  let my := trendMonthYear today i
  let ts := monthTxs s my.2 my.1
  let income := sumAmounts (ts.filter (fun t => t.type == "INCOME"))
  let expenses := sumAmounts (ts.filter (fun t => t.type == "EXPENSE"))
  { month := monthName my.1
    year := my.2
    income := round2 income
    expenses := round2 expenses
    balance := round2 (income - expenses) }

/-- Model of `crud.get_monthly_trend`: `for i in range(months - 1, -1, -1)` emits
the cells for i = months-1 down to 0, oldest month first. -/
def get_monthly_trend (s : State) (today : DDate) (months : Nat) :
    List MonthlyTrend :=
  ((List.range months).reverse).map (trendCell s today)

/-- Default value of `auth.SECRET_KEY`. -/
def SECRET_KEY : String := "your-secret-key-change-in-production-finance-tracker-2024"

/-- The SHA-256 hex digest primitive (`hashlib`, an external collaborator):
modelled abstractly as the identity on the digested text — the development
only relies on the digest being a deterministic function of its input. -/
def sha256hex (text : String) : String := text

/-- Model of `auth.hash_password`: digest of the fixed salt (first 16 characters of
the secret key) concatenated with the password. -/
def hash_password (password : String) : String :=
  sha256hex ((SECRET_KEY.take 16) ++ password)

/-- Model of `auth.create_user`: 400 when the username is taken, then 400 when the
email is taken (username checked first), otherwise persist the user with
the hashed password. -/
def create_user (s : State) (username email password : String)
    (full_name : Option String) : Except ApiError User × State :=
  if (s.users.find? (fun u => u.username == username)).isSome then
    (.error ⟨400, "Username already registered"⟩, s)
  else if (s.users.find? (fun u => u.email == email)).isSome then
    (.error ⟨400, "Email already registered"⟩, s)
  else
    let u : User := ⟨s.next_user_id, username, email, hash_password password, full_name⟩
    (.ok u, { s with users := s.users ++ [u],
                     next_user_id := s.next_user_id + 1 })

/-! ### Rounding lemmas -/

lemma roundHalfEven_intCast (k : ℤ) : roundHalfEven (k : ℚ) = k := by
  unfold roundHalfEven
  norm_num [Int.floor_intCast]

lemma round2_cents (k : ℤ) : round2 ((k : ℚ) / 100) = (k : ℚ) / 100 := by
  unfold round2
  rw [div_mul_cancel₀ _ (by norm_num : (100 : ℚ) ≠ 0), roundHalfEven_intCast]

lemma round2_intCast (k : ℤ) : round2 (k : ℚ) = k := by
  have h := round2_cents (k * 100)
  rw [show (((k * 100 : ℤ) : ℚ)) / 100 = (k : ℚ) by push_cast; ring] at h
  exact h

lemma round1_intCast (k : ℤ) : round1 (k : ℚ) = k := by
  unfold round1
  rw [show ((k : ℚ) * 10) = ((k * 10 : ℤ) : ℚ) by push_cast; ring, roundHalfEven_intCast]
  push_cast
  ring

lemma round2_zero : round2 0 = 0 := by
  have h := round2_intCast 0
  simpa using h

lemma round1_zero : round1 0 = 0 := by
  have h := round1_intCast 0
  simpa using h

lemma exists_cents_sum (l : List ℚ) (h : ∀ x ∈ l, ∃ k : ℤ, x = (k : ℚ) / 100) :
    ∃ K : ℤ, l.sum = (K : ℚ) / 100 := by
  induction l with
  | nil => exact ⟨0, by simp⟩
  | cons a l ih =>
      obtain ⟨ka, hka⟩ := h a (List.mem_cons_self a l)
      obtain ⟨K, hK⟩ := ih (fun x hx => h x (List.mem_cons_of_mem a hx))
      refine ⟨ka + K, ?_⟩
      rw [List.sum_cons, hka, hK]
      push_cast
      ring

/-! ### Claim C1 (summary): the rounded-outputs formulas hold, but the exact
identity `balance = total_income - total_expenses` fails for sub-cent
amounts because the code rounds the difference of the unrounded sums. -/

/-- Store holding one income of 0.006 and one expense of 0.002: the summary
rounds income to 0.01, expenses to 0.00, yet the balance to 0.00. -/
def c1CexState : State :=
  ⟨[], [⟨1, "Salary", "INCOME"⟩],
   [⟨1, 3 / 500, "INCOME", none, ⟨2025, 1, 10⟩, 1⟩,
    ⟨2, 1 / 500, "EXPENSE", none, ⟨2025, 1, 11⟩, 1⟩],
   [], 1, 2, 3, 1⟩

/-- Claim C1, counterexample: on `c1CexState` the reported balance (0.00)
differs from total_income - total_expenses (0.01 - 0.00), so the claimed
identity fails as stated for arbitrary amounts. -/
theorem summary_balance_decoupled_cex :
    ¬ ((get_summary c1CexState none none).balance
        = (get_summary c1CexState none none).total_income
          - (get_summary c1CexState none none).total_expenses) := by
  have hb : (get_summary c1CexState none none).balance = 0 := by
    simp [get_summary, c1CexState, dateFilter, sumAmounts]
    norm_num [round2, roundHalfEven]
  have hi : (get_summary c1CexState none none).total_income = 1 / 100 := by
    simp [get_summary, c1CexState, dateFilter, sumAmounts]
    norm_num [round2, roundHalfEven]
  have he : (get_summary c1CexState none none).total_expenses = 0 := by
    simp [get_summary, c1CexState, dateFilter, sumAmounts]
    norm_num [round2, roundHalfEven]
  rw [hb, hi, he]
  norm_num

/-- Claim C1 (amended): `summary` returns the 2-decimal rounding of the sum
of INCOME amounts in range, likewise for EXPENSE, the count of all rows in
range, and a balance equal to the rounding of the difference of the
unrounded sums; when every stored amount is a whole number of cents the
balance moreover equals `total_income - total_expenses` exactly. -/
theorem summary_spec (s : State) (sd ed : Option DDate)
    (hc : ∀ t ∈ s.transactions, ∃ k : ℤ, t.amount = (k : ℚ) / 100) :
    (get_summary s sd ed).total_income
        = round2 (sumAmounts ((s.transactions.filter (dateFilter sd ed)).filter
            (fun t => t.type == "INCOME"))) ∧
    (get_summary s sd ed).total_expenses
        = round2 (sumAmounts ((s.transactions.filter (dateFilter sd ed)).filter
            (fun t => t.type == "EXPENSE"))) ∧
    (get_summary s sd ed).transaction_count
        = (s.transactions.filter (dateFilter sd ed)).length ∧
    (get_summary s sd ed).balance
        = round2 (sumAmounts ((s.transactions.filter (dateFilter sd ed)).filter
              (fun t => t.type == "INCOME"))
            - sumAmounts ((s.transactions.filter (dateFilter sd ed)).filter
              (fun t => t.type == "EXPENSE"))) ∧
    (get_summary s sd ed).balance
        = (get_summary s sd ed).total_income - (get_summary s sd ed).total_expenses := by
  refine ⟨rfl, rfl, rfl, rfl, ?_⟩
  have hcents : ∀ (p : Transaction → Bool),
      ∃ K : ℤ, sumAmounts ((s.transactions.filter (dateFilter sd ed)).filter p)
        = (K : ℚ) / 100 := by
    intro p
    apply exists_cents_sum
    intro x hx
    obtain ⟨t, ht, rfl⟩ := List.mem_map.mp hx
    exact hc t (List.mem_of_mem_filter (List.mem_of_mem_filter ht))
  obtain ⟨KI, hKI⟩ := hcents (fun t => t.type == "INCOME")
  obtain ⟨KE, hKE⟩ := hcents (fun t => t.type == "EXPENSE")
  show round2 (sumAmounts _ - sumAmounts _) = round2 (sumAmounts _) - round2 (sumAmounts _)
  rw [hKI, hKE, round2_cents, round2_cents]
  have hsub : (KI : ℚ) / 100 - (KE : ℚ) / 100 = ((KI - KE : ℤ) : ℚ) / 100 := by
    push_cast
    ring
  rw [hsub, round2_cents]

/-- Store with whole-cent amounts for the `summary_spec` witness. -/
def c1State : State :=
  ⟨[], [⟨1, "Salary", "INCOME"⟩],
   [⟨1, 123 / 100, "INCOME", none, ⟨2025, 1, 5⟩, 1⟩,
    ⟨2, 45 / 100, "EXPENSE", none, ⟨2025, 1, 6⟩, 1⟩],
   [], 1, 2, 3, 1⟩

/-- Witness for `summary_spec` at a concrete whole-cent store. -/
theorem summary_spec_witness :
    (get_summary c1State none none).balance
      = (get_summary c1State none none).total_income
        - (get_summary c1State none none).total_expenses :=
  (summary_spec c1State none none (by
    intro t ht
    simp [c1State] at ht
    rcases ht with rfl | rfl
    · exact ⟨123, by norm_num⟩
    · exact ⟨45, by norm_num⟩)).2.2.2.2

/-! ### Claim C9: a supplied `category_id` of 0 is falsy in Python, so the
category filter is skipped entirely. -/

/-- Claim C9: filtering with `category_id = 0` yields exactly the result of
not filtering by category at all — the clause is skipped because 0 is
falsy, so transactions of every category are returned. -/
theorem category_zero_filter_skipped (s : State) (skip limit : Nat)
    (sd ed : Option DDate) (ty : Option String) :
    get_transactions s skip limit sd ed (some 0) ty
      = get_transactions s skip limit sd ed none ty := by
  have h : txMatches sd ed (some 0) ty = txMatches sd ed none ty := by
    funext t
    simp [txMatches]
  simp [get_transactions, h]

/-! ### Claim C10: the two bounds of the budget-status range default
independently of each other. -/

/-- Claim C10: when exactly one of the two date bounds is supplied to
`budgets_with_status`, the supplied bound is kept and only the missing one
is replaced by the matching boundary of the current month, yielding a
mixed range. -/
theorem budget_range_defaults_independent (s : State) (today d : DDate) :
    get_budgets_with_status s today (some d) none
      = s.budgets.map (budgetStatusFor s d (monthEnd today)) ∧
    get_budgets_with_status s today none (some d)
      = s.budgets.map (budgetStatusFor s (monthStart today) d) := by
  constructor <;> rfl

/-! ### Claim C5: the two failure kinds carry the same status 400, not
distinct ones. -/

/-- Store holding one category named Food, for the status counterexample. -/
def c5State : State := ⟨[], [⟨1, "Food", "EXPENSE"⟩], [], [], 1, 2, 1, 1⟩

/-- Claim C5, counterexample: creating a duplicate-name category and
creating a transaction with an unresolvable category both fail with status
400 — the statuses coincide instead of being distinct (both leave the
store unchanged). -/
theorem duplicate_category_status_cex :
    errorStatus (create_category c5State ⟨"Food", "EXPENSE"⟩).1
      = errorStatus (create_transaction c5State ⟨5, "EXPENSE", none, ⟨2025, 1, 1⟩, 99⟩).1 ∧
    errorStatus (create_category c5State ⟨"Food", "EXPENSE"⟩).1 = some 400 ∧
    (create_category c5State ⟨"Food", "EXPENSE"⟩).2 = c5State ∧
    (create_transaction c5State ⟨5, "EXPENSE", none, ⟨2025, 1, 1⟩, 99⟩).2 = c5State := by
  exact ⟨rfl, rfl, rfl, rfl⟩

/-- Claim C5 (amended): a duplicate-name `create_category` and a
`create_transaction` with an unresolvable `category_id` both fail with the
same status 400 (they differ only in the detail message), and in both
failure cases the store is unchanged. -/
theorem error_statuses_amended :
    (∀ (s : State) (cc : CategoryCreate),
        (∃ c ∈ s.categories, c.name = cc.name) →
        errorStatus (create_category s cc).1 = some 400 ∧
        (create_category s cc).2 = s) ∧
    (∀ (s : State) (tc : TransactionCreate),
        get_category s tc.category_id = none →
        errorStatus (create_transaction s tc).1 = some 400 ∧
        (create_transaction s tc).2 = s) := by
  constructor
  · rintro s cc ⟨c, hc, hname⟩
    cases hfind : s.categories.find? (fun x => x.name == cc.name) with
    | none =>
        rw [List.find?_eq_none] at hfind
        exact absurd (by simpa using hname) (by simpa using hfind c hc)
    | some c0 => simp [create_category, hfind, errorStatus]
  · intro s tc hcat
    simp [create_transaction, hcat, errorStatus]

/-- Witness for `error_statuses_amended` at concrete inputs. -/
theorem error_statuses_amended_witness :
    (errorStatus (create_category c5State ⟨"Food", "INCOME"⟩).1 = some 400 ∧
       (create_category c5State ⟨"Food", "INCOME"⟩).2 = c5State) ∧
    (errorStatus (create_transaction c5State ⟨1, "EXPENSE", none, ⟨2025, 1, 1⟩, 42⟩).1
         = some 400 ∧
       (create_transaction c5State ⟨1, "EXPENSE", none, ⟨2025, 1, 1⟩, 42⟩).2 = c5State) :=
  ⟨error_statuses_amended.1 c5State ⟨"Food", "INCOME"⟩
      ⟨⟨1, "Food", "EXPENSE"⟩, by decide, rfl⟩,
   error_statuses_amended.2 c5State ⟨1, "EXPENSE", none, ⟨2025, 1, 1⟩, 42⟩ (by decide)⟩

/-! ### Claim C7: registration checks username first, then email. -/

/-- Claim C7: `create_user` fails with the username-duplicate error whenever
the username is taken (so that error wins when both fields conflict), fails
with the email-duplicate error when only the email is taken, and otherwise
persists exactly one new user carrying the hashed password. -/
theorem register_spec (s : State) (username email password : String)
    (fn : Option String) :
    ((∃ u ∈ s.users, u.username = username) →
        create_user s username email password fn
          = (.error ⟨400, "Username already registered"⟩, s)) ∧
    ((∀ u ∈ s.users, u.username ≠ username) →
      (∃ u ∈ s.users, u.email = email) →
        create_user s username email password fn
          = (.error ⟨400, "Email already registered"⟩, s)) ∧
    ((∀ u ∈ s.users, u.username ≠ username) →
      (∀ u ∈ s.users, u.email ≠ email) →
      ∃ nu : User,
        create_user s username email password fn
          = (.ok nu, { s with users := s.users ++ [nu],
                              next_user_id := s.next_user_id + 1 }) ∧
        nu.username = username ∧ nu.email = email ∧
        nu.hashed_password = hash_password password ∧ nu.full_name = fn) := by
  refine ⟨?_, ?_, ?_⟩
  · rintro ⟨u, hu, hname⟩
    cases hfind : s.users.find? (fun x => x.username == username) with
    | none =>
        rw [List.find?_eq_none] at hfind
        exact absurd (by simpa using hname) (by simpa using hfind u hu)
    | some u0 => simp [create_user, hfind]
  · rintro hnameall ⟨u, hu, hmail⟩
    have hfu : s.users.find? (fun x => x.username == username) = none := by
      rw [List.find?_eq_none]
      intro x hx
      simpa using hnameall x hx
    cases hfind : s.users.find? (fun x => x.email == email) with
    | none =>
        rw [List.find?_eq_none] at hfind
        exact absurd (by simpa using hmail) (by simpa using hfind u hu)
    | some u0 => simp [create_user, hfu, hfind]
  · intro hnameall hmailall
    have hfu : s.users.find? (fun x => x.username == username) = none := by
      rw [List.find?_eq_none]
      intro x hx
      simpa using hnameall x hx
    have hfe : s.users.find? (fun x => x.email == email) = none := by
      rw [List.find?_eq_none]
      intro x hx
      simpa using hmailall x hx
    exact ⟨⟨s.next_user_id, username, email, hash_password password, fn⟩,
      by simp [create_user, hfu, hfe], rfl, rfl, rfl, rfl⟩

/-- Store holding one registered user, alice, for the register witness. -/
def c7State : State :=
  ⟨[⟨1, "alice", "alice@example.com", "h", none⟩], [], [], [], 2, 1, 1, 1⟩

/-- Witness for `register_spec`: both the username and the email of alice
conflict, and the username-duplicate error is the one reported. -/
theorem register_spec_witness :
    create_user c7State "alice" "alice@example.com" "pw" none
      = (.error ⟨400, "Username already registered"⟩, c7State) :=
  (register_spec c7State "alice" "alice@example.com" "pw" none).1
    ⟨⟨1, "alice", "alice@example.com", "h", none⟩, by decide, rfl⟩

/-! ### Claim C2: budget status computation. -/

/-- Claim C2: every budget row is mapped to a status entry whose
`spent_amount` is the (2-decimal-rounded) sum of the transaction amounts of
that category inside the resolved inclusive range, whose `remaining` is the
rounding of `amount - spent` (possibly negative), whose `percentage_used`
is `spent / amount * 100` rounded to one decimal with 0 when
`amount ≤ 0` (so the division is guarded), and whose `is_over_budget` holds
exactly when the unrounded spend exceeds the budget amount. -/
theorem budgets_with_status_spec (s : State) (today : DDate)
    (sd ed : Option DDate) (b : Budget) (hb : b ∈ s.budgets) :
    ∃ e ∈ get_budgets_with_status s today sd ed,
      e.budget_id = b.budget_id ∧
      e.category_id = b.category_id ∧
      e.budget_amount = b.amount ∧
      e.spent_amount
        = round2 (spentSum s b.category_id (resolveRange today sd ed).1
            (resolveRange today sd ed).2) ∧
      e.remaining
        = round2 (b.amount - spentSum s b.category_id (resolveRange today sd ed).1
            (resolveRange today sd ed).2) ∧
      e.percentage_used
        = (if 0 < b.amount
           then round1 (spentSum s b.category_id (resolveRange today sd ed).1
              (resolveRange today sd ed).2 / b.amount * 100)
           else 0) ∧
      (e.is_over_budget = true ↔
        b.amount < spentSum s b.category_id (resolveRange today sd ed).1
          (resolveRange today sd ed).2) := by
  refine ⟨budgetStatusFor s (resolveRange today sd ed).1 (resolveRange today sd ed).2 b,
    List.mem_map_of_mem _ hb, rfl, rfl, rfl, rfl, rfl, ?_, ?_⟩
  · by_cases h : 0 < b.amount <;>
      simp [budgetStatusFor, h, round1_zero]
  · simp [budgetStatusFor]

/-- Store with a 10000 budget and an in-range spend of 4500. -/
def c2State : State :=
  ⟨[], [⟨1, "Rent", "EXPENSE"⟩],
   [⟨1, 4500, "EXPENSE", none, ⟨2025, 3, 10⟩, 1⟩],
   [⟨1, 1, 10000, "MONTHLY"⟩], 1, 2, 2, 2⟩

/-- Store with a 10000 budget and an in-range spend of 12000. -/
def c2StateOver : State :=
  ⟨[], [⟨1, "Rent", "EXPENSE"⟩],
   [⟨1, 12000, "EXPENSE", none, ⟨2025, 3, 10⟩, 1⟩],
   [⟨1, 1, 10000, "MONTHLY"⟩], 1, 2, 2, 2⟩

/-- Witness for `budgets_with_status_spec`: the round-trip examples of the
claim — spend 4500 against a 10000 budget gives 4500 / 5500 / 45.0 / not
over budget, and spend 12000 gives remaining -2000 and over budget. -/
theorem budgets_with_status_spec_witness :
    (∃ e ∈ get_budgets_with_status c2State ⟨2025, 3, 15⟩
        (some ⟨2025, 3, 1⟩) (some ⟨2025, 3, 31⟩),
      e.spent_amount = 4500 ∧ e.remaining = 5500 ∧
      e.percentage_used = 45 ∧ e.is_over_budget = false) ∧
    (∃ e ∈ get_budgets_with_status c2StateOver ⟨2025, 3, 15⟩
        (some ⟨2025, 3, 1⟩) (some ⟨2025, 3, 31⟩),
      e.remaining = -2000 ∧ e.is_over_budget = true) := by
  constructor
  · obtain ⟨e, he, h1, h2, h3, h4, h5, h6, h7⟩ :=
      budgets_with_status_spec c2State ⟨2025, 3, 15⟩
        (some ⟨2025, 3, 1⟩) (some ⟨2025, 3, 31⟩)
        ⟨1, 1, 10000, "MONTHLY"⟩ (by simp [c2State])
    have hs : spentSum c2State 1
        (resolveRange ⟨2025, 3, 15⟩ (some ⟨2025, 3, 1⟩) (some ⟨2025, 3, 31⟩)).1
        (resolveRange ⟨2025, 3, 15⟩ (some ⟨2025, 3, 1⟩) (some ⟨2025, 3, 31⟩)).2
        = 4500 := by
      norm_num [spentSum, sumAmounts, c2State, resolveRange, dle]
    rw [hs] at h4 h5 h6 h7
    refine ⟨e, he, ?_, ?_, ?_, ?_⟩
    · rw [h4, show (4500 : ℚ) = ((4500 : ℤ) : ℚ) by norm_num, round2_intCast]
      try norm_num
    · rw [h5, show ((10000 : ℚ) - 4500) = ((5500 : ℤ) : ℚ) by norm_num, round2_intCast]
      try norm_num
    · rw [h6]
      rw [if_pos (by norm_num : (0 : ℚ) < 10000)]
      rw [show ((4500 : ℚ) / 10000 * 100) = ((45 : ℤ) : ℚ) by norm_num, round1_intCast]
      norm_num
    · have : ¬ ((10000 : ℚ) < 4500) := by norm_num
      simp [this] at h7
      exact h7
  · obtain ⟨e, he, h1, h2, h3, h4, h5, h6, h7⟩ :=
      budgets_with_status_spec c2StateOver ⟨2025, 3, 15⟩
        (some ⟨2025, 3, 1⟩) (some ⟨2025, 3, 31⟩)
        ⟨1, 1, 10000, "MONTHLY"⟩ (by simp [c2StateOver])
    have hs : spentSum c2StateOver 1
        (resolveRange ⟨2025, 3, 15⟩ (some ⟨2025, 3, 1⟩) (some ⟨2025, 3, 31⟩)).1
        (resolveRange ⟨2025, 3, 15⟩ (some ⟨2025, 3, 1⟩) (some ⟨2025, 3, 31⟩)).2
        = 12000 := by
      norm_num [spentSum, sumAmounts, c2StateOver, resolveRange, dle]
    rw [hs] at h5 h7
    refine ⟨e, he, ?_, ?_⟩
    · rw [h5, show ((10000 : ℚ) - 12000) = ((-2000 : ℤ) : ℚ) by norm_num, round2_intCast]
      try norm_num
    · exact h7.mpr (by norm_num)

/-! ### Claim C3: monthly trend month walk. -/

lemma normalizeMonth_spec : ∀ (fuel : Nat) (m y : Int), (1 - m).toNat ≤ fuel → m ≤ 12 →
    1 ≤ (normalizeMonth m y).1 ∧ (normalizeMonth m y).1 ≤ 12 ∧
    (normalizeMonth m y).2 * 12 + (normalizeMonth m y).1 = y * 12 + m := by
  intro fuel
  induction fuel with
  | zero =>
      intro m y hfuel hm
      rw [normalizeMonth]
      have hpos : ¬ (m ≤ 0) := by omega
      simp [hpos]
      omega
  | succ k ih =>
      intro m y hfuel hm
      by_cases h : m ≤ 0
      · rw [normalizeMonth]
        simp only [h, dif_pos]
        obtain ⟨a, b, c⟩ := ih (m + 12) (y - 1) (by omega) (by omega)
        exact ⟨a, b, by omega⟩
      · rw [normalizeMonth]
        simp [h]
        omega

lemma range_reverse_getElem (n j : Nat) (h : j < n) :
    (List.range n).reverse[j]? = some (n - 1 - j) := by
  rw [List.getElem?_reverse (by simpa using h)]
  simp [List.length_range, List.getElem?_range (by omega : n - 1 - j < n)]

/-- Claim C3: for n months ending at the current month, the trend has
exactly n entries; the j-th entry (0-based) is the cell of the normalised
(month, year) pair whose linear month index is the index of the current month
minus (n-1-j) — so the entries cover n consecutive calendar months,
oldest first, with no month omitted or duplicated and the backward walk
wrapping correctly across year boundaries; a month with no transactions
yields zero sums. -/
theorem monthly_trend_spec (s : State) (today : DDate) (n : Nat)
    (hn : 1 ≤ n) (hm1 : 1 ≤ today.month) (hm2 : today.month ≤ 12) :
    (get_monthly_trend s today n).length = n ∧
    ∀ j, j < n →
      ∃ m y : Int,
        trendMonthYear today (n - 1 - j) = (m, y) ∧
        1 ≤ m ∧ m ≤ 12 ∧
        y * 12 + m = today.year * 12 + today.month - ((n : Int) - 1) + (j : Int) ∧
        (get_monthly_trend s today n)[j]? = some (trendCell s today (n - 1 - j)) ∧
        (trendCell s today (n - 1 - j)).year = y ∧
        (trendCell s today (n - 1 - j)).month = monthName m ∧
        (monthTxs s y m = [] →
          (trendCell s today (n - 1 - j)).income = 0 ∧
          (trendCell s today (n - 1 - j)).expenses = 0 ∧
          (trendCell s today (n - 1 - j)).balance = 0) := by
  constructor
  · simp [get_monthly_trend]
  · intro j hj
    obtain ⟨h1, h2, h3⟩ := normalizeMonth_spec
      ((1 - (today.month - ((n - 1 - j : Nat) : Int))).toNat)
      (today.month - ((n - 1 - j : Nat) : Int)) today.year le_rfl (by omega)
    have h1t : 1 ≤ (trendMonthYear today (n - 1 - j)).1 := h1
    have h2t : (trendMonthYear today (n - 1 - j)).1 ≤ 12 := h2
    have h3t : (trendMonthYear today (n - 1 - j)).2 * 12
        + (trendMonthYear today (n - 1 - j)).1
        = today.year * 12 + (today.month - ((n - 1 - j : Nat) : Int)) := h3
    refine ⟨(trendMonthYear today (n - 1 - j)).1, (trendMonthYear today (n - 1 - j)).2,
      by simp, h1t, h2t, by omega, ?_, rfl, rfl, ?_⟩
    · show ((List.range n).reverse.map (trendCell s today))[j]?
        = some (trendCell s today (n - 1 - j))
      rw [List.getElem?_map, range_reverse_getElem n j hj]
      rfl
    · intro hempty
      refine ⟨?_, ?_, ?_⟩ <;>
        simp [trendCell, hempty, sumAmounts, round2_zero]

/-- The empty store. -/
def emptyState : State := ⟨[], [], [], [], 1, 1, 1, 1⟩

/-- Witness for `monthly_trend_spec` at a concrete current date (February
2025) and n = 3: the trend has exactly three entries. -/
theorem monthly_trend_spec_witness :
    (get_monthly_trend emptyState ⟨2025, 2, 15⟩ 3).length = 3 :=
  (monthly_trend_spec emptyState ⟨2025, 2, 15⟩ 3 (by decide) (by decide) (by decide)).1

/-! ### Claim C4: budget upsert semantics. -/

lemma updateFirstBudget_twice (l : List Budget) (cid : Int) (a : ℚ) (per : String) :
    updateFirstBudget (updateFirstBudget l cid a per) cid a per
      = updateFirstBudget l cid a per := by
  induction l with
  | nil => rfl
  | cons b bs ih =>
      by_cases h : b.category_id = cid
      · simp [updateFirstBudget, h]
      · simp [updateFirstBudget, h, ih]

lemma find?_append_singleton (q : Budget → Bool) (l : List Budget) (x : Budget)
    (hl : ∀ y ∈ l, ¬ q y = true) (hx : q x = true) :
    (l ++ [x]).find? q = some x := by
  induction l with
  | nil => simp [List.find?_cons, hx]
  | cons b bs ih =>
      have hb := hl b (List.mem_cons_self b bs)
      simp only [List.cons_append]
      rw [List.find?_cons_of_neg _ hb]
      exact ih (fun y hy => hl y (List.mem_cons_of_mem b hy))

lemma updateFirstBudget_append_singleton (l : List Budget) (x : Budget)
    (cid : Int) (a : ℚ) (per : String)
    (hl : ∀ y ∈ l, ¬ y.category_id = cid) (hx : x.category_id = cid) :
    updateFirstBudget (l ++ [x]) cid a per
      = l ++ [{ x with amount := a, period := per }] := by
  induction l with
  | nil => simp [updateFirstBudget, hx]
  | cons b bs ih =>
      have hb := hl b (List.mem_cons_self b bs)
      simp only [List.cons_append, updateFirstBudget]
      rw [if_neg (by simpa using hb)]
      simp [ih (fun y hy => hl y (List.mem_cons_of_mem b hy))]

lemma filter_updateFirstBudget (l : List Budget) (cid : Int) (a : ℚ) (per : String)
    (b : Budget)
    (hf : l.find? (fun x => x.category_id == cid) = some b)
    (hcount : l.countP (fun x => x.category_id == cid) ≤ 1) :
    (updateFirstBudget l cid a per).filter (fun x => x.category_id == cid)
      = [{ b with amount := a, period := per }] := by
  induction l with
  | nil => simp at hf
  | cons c cs ih =>
      by_cases hc : c.category_id = cid
      · rw [List.find?_cons_of_pos _ (by simpa using hc)] at hf
        injection hf with hf
        subst hf
        have hcs : cs.countP (fun x => x.category_id == cid) = 0 := by
          rw [List.countP_cons_of_pos _ _ (by simpa using hc)] at hcount
          omega
        have hnil : cs.filter (fun x => x.category_id == cid) = [] := by
          rw [← List.length_eq_zero, ← List.countP_eq_length_filter]
          exact hcs
        simp [updateFirstBudget, hc, List.filter_cons, hnil]
      · rw [List.find?_cons_of_neg _ (by simpa using hc)] at hf
        have hcount2 : cs.countP (fun x => x.category_id == cid) ≤ 1 := by
          rw [List.countP_cons_of_neg _ _ (by simpa using hc)] at hcount
          exact hcount
        simp [updateFirstBudget, hc, List.filter_cons, ih hf hcount2]

lemma find?_updateFirstBudget (l : List Budget) (cid : Int) (a : ℚ) (per : String)
    (b : Budget)
    (hf : l.find? (fun x => x.category_id == cid) = some b) :
    (updateFirstBudget l cid a per).find? (fun x => x.category_id == cid)
      = some { b with amount := a, period := per } := by
  induction l with
  | nil => simp at hf
  | cons c cs ih =>
      by_cases hc : c.category_id = cid
      · rw [List.find?_cons_of_pos _ (by simpa using hc)] at hf
        injection hf with hf
        subst hf
        simp [updateFirstBudget, hc, List.find?_cons_of_pos]
      · rw [List.find?_cons_of_neg _ (by simpa using hc)] at hf
        simp only [updateFirstBudget]
        rw [if_neg (by simpa using hc)]
        rw [List.find?_cons_of_neg _ (by simpa using hc)]
        exact ih hf

/-- Claim C4: for an existing EXPENSE category (holding at most one budget
row, as the unique constraint guarantees), two successive
`create_or_update_budget` calls for that category leave exactly one budget
row for it, carrying the amount and period of the second call and the budget id
produced by the first call; a second call with identical amount and period
leaves the store exactly as after the first call. -/
theorem budget_upsert_idempotent (s : State) (c₁ c₂ : BudgetCreate) (cat : Category)
    (hcid : c₂.category_id = c₁.category_id)
    (hcat : get_category s c₁.category_id = some cat)
    (hexp : cat.type = "EXPENSE")
    (huniq : s.budgets.countP (fun b => b.category_id == c₁.category_id) ≤ 1) :
    ∃ b₁ b₂ : Budget,
      (create_or_update_budget s c₁).2.budgets.filter
          (fun b => b.category_id == c₁.category_id) = [b₁] ∧
      (create_or_update_budget (create_or_update_budget s c₁).2 c₂).2.budgets.filter
          (fun b => b.category_id == c₁.category_id) = [b₂] ∧
      b₂.budget_id = b₁.budget_id ∧
      b₂.amount = c₂.amount ∧ b₂.period = c₂.period ∧
      (c₂.amount = c₁.amount → c₂.period = c₁.period →
        (create_or_update_budget (create_or_update_budget s c₁).2 c₂).2
          = (create_or_update_budget s c₁).2) := by
  have hbne : (cat.type != "EXPENSE") = false := by simp [hexp]
  cases hf : s.budgets.find? (fun b => b.category_id == c₁.category_id) with
  | none =>
      have hall : ∀ y ∈ s.budgets, ¬ y.category_id = c₁.category_id := by
        rw [List.find?_eq_none] at hf
        intro y hy
        simpa using hf y hy
      have hs1 : (create_or_update_budget s c₁).2
          = { s with
              budgets := s.budgets
                ++ [⟨s.next_budget_id, c₁.category_id, c₁.amount, c₁.period⟩],
              next_budget_id := s.next_budget_id + 1 } := by
        simp [create_or_update_budget, hcat, hbne, hf]
      set s1 := (create_or_update_budget s c₁).2 with hs1e
      have hfilnil : s.budgets.filter (fun b => b.category_id == c₁.category_id) = [] :=
        List.filter_eq_nil_iff.mpr (fun a ha => by simpa using hall a ha)
      have hcat2 : get_category s1 c₂.category_id = some cat := by
        rw [hs1, hcid]
        exact hcat
      have hf2 : s1.budgets.find? (fun b => b.category_id == c₂.category_id)
          = some ⟨s.next_budget_id, c₁.category_id, c₁.amount, c₁.period⟩ := by
        rw [hs1, hcid]
        exact find?_append_singleton _ _ _
          (fun y hy => by simpa using hall y hy) (by simp)
      have hs2 : (create_or_update_budget s1 c₂).2
          = { s1 with
              budgets := updateFirstBudget s1.budgets
                c₂.category_id c₂.amount c₂.period } := by
        simp [create_or_update_budget, hcat2, hbne, hf2]
      have hupd : updateFirstBudget s1.budgets c₂.category_id c₂.amount c₂.period
          = s.budgets ++ [⟨s.next_budget_id, c₁.category_id, c₂.amount, c₂.period⟩] := by
        rw [hs1, hcid]
        exact updateFirstBudget_append_singleton _ _ _ _ _ hall rfl
      refine ⟨⟨s.next_budget_id, c₁.category_id, c₁.amount, c₁.period⟩,
        ⟨s.next_budget_id, c₁.category_id, c₂.amount, c₂.period⟩, ?_, ?_, rfl, rfl, rfl, ?_⟩
      · rw [hs1]
        simp [List.filter_append, List.filter_cons, hfilnil]
      · rw [hs2, hupd]
        simp [List.filter_append, List.filter_cons, hfilnil]
      · intro ha hp
        rw [hs2, hupd, ha, hp, hs1]
  | some b0 =>
      have hs1 : (create_or_update_budget s c₁).2
          = { s with
              budgets := updateFirstBudget s.budgets c₁.category_id
                c₁.amount c₁.period } := by
        simp [create_or_update_budget, hcat, hbne, hf]
      set s1 := (create_or_update_budget s c₁).2 with hs1e
      have hfil1 : s1.budgets.filter (fun b => b.category_id == c₁.category_id)
          = [{ b0 with amount := c₁.amount, period := c₁.period }] := by
        rw [hs1]
        exact filter_updateFirstBudget _ _ _ _ _ hf huniq
      have hcat2 : get_category s1 c₂.category_id = some cat := by
        rw [hs1, hcid]
        exact hcat
      have hf2 : s1.budgets.find? (fun b => b.category_id == c₂.category_id)
          = some { b0 with amount := c₁.amount, period := c₁.period } := by
        rw [hs1, hcid]
        exact find?_updateFirstBudget _ _ _ _ _ hf
      have hcount1 : s1.budgets.countP (fun b => b.category_id == c₁.category_id) ≤ 1 := by
        rw [List.countP_eq_length_filter, hfil1]
        simp
      have hs2 : (create_or_update_budget s1 c₂).2
          = { s1 with
              budgets := updateFirstBudget s1.budgets
                c₂.category_id c₂.amount c₂.period } := by
        simp [create_or_update_budget, hcat2, hbne, hf2]
      refine ⟨{ b0 with amount := c₁.amount, period := c₁.period },
        { b0 with amount := c₂.amount, period := c₂.period }, hfil1, ?_, rfl, rfl, rfl, ?_⟩
      · rw [hs2]
        have hres := filter_updateFirstBudget s1.budgets c₁.category_id c₂.amount c₂.period
          { b0 with amount := c₁.amount, period := c₁.period }
          (by rw [← hcid]; exact hf2) hcount1
        rw [hcid]
        exact hres
      · intro ha hp
        rw [hs2, hcid, ha, hp, hs1]
        simp [updateFirstBudget_twice]

/-- Store with one EXPENSE category and no budgets, for the upsert witness. -/
def c4State : State := ⟨[], [⟨1, "Rent", "EXPENSE"⟩], [], [], 1, 2, 1, 1⟩

/-- Witness for `budget_upsert_idempotent` at concrete calls (create 500
MONTHLY, then overwrite with 800 WEEKLY, for category 1). -/
theorem budget_upsert_idempotent_witness :
    ∃ b₁ b₂ : Budget,
      (create_or_update_budget c4State ⟨1, 500, "MONTHLY"⟩).2.budgets.filter
          (fun b => b.category_id == 1) = [b₁] ∧
      (create_or_update_budget (create_or_update_budget c4State ⟨1, 500, "MONTHLY"⟩).2
          ⟨1, 800, "WEEKLY"⟩).2.budgets.filter
          (fun b => b.category_id == 1) = [b₂] ∧
      b₂.budget_id = b₁.budget_id ∧
      b₂.amount = 800 ∧ b₂.period = "WEEKLY" ∧
      ((800 : ℚ) = 500 → "WEEKLY" = "MONTHLY" →
        (create_or_update_budget (create_or_update_budget c4State ⟨1, 500, "MONTHLY"⟩).2
            ⟨1, 800, "WEEKLY"⟩).2
          = (create_or_update_budget c4State ⟨1, 500, "MONTHLY"⟩).2) :=
  budget_upsert_idempotent c4State ⟨1, 500, "MONTHLY"⟩ ⟨1, 800, "WEEKLY"⟩
    ⟨1, "Rent", "EXPENSE"⟩ rfl (by decide) rfl (by decide)

/-! ### Claim C6: transaction listing — filters, ordering, limit. -/

lemma dle_total (a b : DDate) : dle a b = true ∨ dle b a = true := by
  simp only [dle, Bool.or_eq_true, Bool.and_eq_true, decide_eq_true_eq]
  omega

lemma dle_trans (a b c : DDate) (h1 : dle a b = true) (h2 : dle b c = true) :
    dle a c = true := by
  simp only [dle, Bool.or_eq_true, Bool.and_eq_true, decide_eq_true_eq] at h1 h2 ⊢
  omega

lemma mem_insertDesc (t x : Transaction) (l : List Transaction) :
    x ∈ insertDesc t l ↔ x = t ∨ x ∈ l := by
  induction l with
  | nil => simp [insertDesc]
  | cons e es ih =>
      by_cases h : dle t.transaction_date e.transaction_date = true
      · simp only [insertDesc, if_pos h, List.mem_cons, ih]
        tauto
      · simp only [insertDesc, if_neg h, List.mem_cons]
        try tauto

lemma pairwise_insertDesc (t : Transaction) (l : List Transaction)
    (hl : l.Pairwise (fun a b => dle b.transaction_date a.transaction_date = true)) :
    (insertDesc t l).Pairwise
      (fun a b => dle b.transaction_date a.transaction_date = true) := by
  induction l with
  | nil => simp [insertDesc]
  | cons e es ih =>
      rcases List.pairwise_cons.mp hl with ⟨he, hes⟩
      by_cases h : dle t.transaction_date e.transaction_date = true
      · simp only [insertDesc, if_pos h]
        rw [List.pairwise_cons]
        refine ⟨?_, ih hes⟩
        intro x hx
        rcases (mem_insertDesc t x es).mp hx with rfl | hx2
        · exact h
        · exact he x hx2
      · simp only [insertDesc, if_neg h]
        rw [List.pairwise_cons]
        have het : dle e.transaction_date t.transaction_date = true := by
          rcases dle_total t.transaction_date e.transaction_date with h1 | h1
          · exact absurd h1 h
          · exact h1
        refine ⟨?_, hl⟩
        intro x hx
        rcases List.mem_cons.mp hx with rfl | hx2
        · exact het
        · exact dle_trans _ _ _ (he x hx2) het

lemma sortDesc_pairwise (l : List Transaction) :
    (sortDesc l).Pairwise
      (fun a b => dle b.transaction_date a.transaction_date = true) := by
  induction l with
  | nil => simp [sortDesc]
  | cons t ts ih =>
      exact pairwise_insertDesc t (sortDesc ts) ih

lemma mem_sortDesc (x : Transaction) (l : List Transaction) :
    x ∈ sortDesc l ↔ x ∈ l := by
  induction l with
  | nil => simp [sortDesc]
  | cons t ts ih =>
      show x ∈ insertDesc t (sortDesc ts) ↔ x ∈ t :: ts
      rw [mem_insertDesc, ih, List.mem_cons]

/-- Claim C6 (amended): for every combination of supplied filters in which
`category_id` is not the falsy value 0 (and `type` is not the falsy empty
string), `list_transactions` returns only rows satisfying the conjunction
of the supplied filters, in descending `transaction_date` order, and never
more than `limit` rows. -/
theorem list_transactions_spec (s : State) (skip limit : Nat)
    (sd ed : Option DDate) (cid : Option Int) (ty : Option String)
    (hlim1 : 1 ≤ limit) (hlim2 : limit ≤ 1000)
    (hcid : cid ≠ some 0) (hty : ty ≠ some "") :
    (∀ t ∈ get_transactions s skip limit sd ed cid ty,
      (∀ d, sd = some d → dle d t.transaction_date = true) ∧
      (∀ d, ed = some d → dle t.transaction_date d = true) ∧
      (∀ c, cid = some c → t.category_id = c) ∧
      (∀ v, ty = some v → t.type = v)) ∧
    (get_transactions s skip limit sd ed cid ty).Pairwise
      (fun a b => dle b.transaction_date a.transaction_date = true) ∧
    (get_transactions s skip limit sd ed cid ty).length ≤ limit := by
  refine ⟨?_, ?_, ?_⟩
  · intro t ht
    have hmem : t ∈ sortDesc (s.transactions.filter (txMatches sd ed cid ty)) :=
      List.mem_of_mem_drop (List.mem_of_mem_take ht)
    rw [mem_sortDesc] at hmem
    have hmatch := (List.mem_filter.mp hmem).2
    simp only [txMatches, Bool.and_eq_true] at hmatch
    obtain ⟨⟨⟨hsd, hed⟩, hcid2⟩, hty2⟩ := hmatch
    refine ⟨?_, ?_, ?_, ?_⟩
    · intro d hd
      rw [hd] at hsd
      simpa using hsd
    · intro d hd
      rw [hd] at hed
      simpa using hed
    · intro c hc
      rw [hc] at hcid2
      have hc0 : (c == 0) = false := by
        have : ¬ (c = 0) := fun h0 => hcid (by rw [hc, h0])
        simpa using this
      simp [hc0] at hcid2
      exact hcid2
    · intro v hv
      rw [hv] at hty2
      have hv0 : (v == "") = false := by
        have : ¬ (v = "") := fun h0 => hty (by rw [hv, h0])
        simpa using this
      simp [hv0] at hty2
      exact hty2
  · have hp := sortDesc_pairwise (s.transactions.filter (txMatches sd ed cid ty))
    have hsub : List.Sublist (get_transactions s skip limit sd ed cid ty)
        (sortDesc (s.transactions.filter (txMatches sd ed cid ty))) :=
      (List.take_sublist _ _).trans (List.drop_sublist _ _)
    exact hp.sublist hsub
  · exact List.length_take_le _ _

/-- Store with a single transaction of category 1, for the C6 material. -/
def c6State : State :=
  ⟨[], [⟨1, "Salary", "INCOME"⟩],
   [⟨1, 5, "INCOME", none, ⟨2025, 1, 10⟩, 1⟩], [], 1, 2, 2, 1⟩

/-- Claim C6, counterexample: with the supplied filter `category_id = 0`
the result still contains a row whose `category_id` is not 0 — the
universally quantified only-matching-rows property fails at 0, because the
falsy value skips the filter. -/
theorem list_transactions_cid0_cex :
    ∃ t ∈ get_transactions c6State 0 100 none none (some 0) none,
      ¬ (t.category_id = 0) := by
  have hres : get_transactions c6State 0 100 none none (some 0) none
      = [⟨1, 5, "INCOME", none, ⟨2025, 1, 10⟩, 1⟩] := by
    simp [get_transactions, txMatches, sortDesc, insertDesc, c6State]
  rw [hres]
  exact ⟨⟨1, 5, "INCOME", none, ⟨2025, 1, 10⟩, 1⟩, List.mem_singleton.mpr rfl,
    by norm_num⟩

/-- Witness for `list_transactions_spec` at concrete filters. -/
theorem list_transactions_spec_witness :
    (∀ t ∈ get_transactions c6State 0 100 none none (some 1) (some "INCOME"),
      (∀ d, (none : Option DDate) = some d → dle d t.transaction_date = true) ∧
      (∀ d, (none : Option DDate) = some d → dle t.transaction_date d = true) ∧
      (∀ c, (some 1 : Option Int) = some c → t.category_id = c) ∧
      (∀ v, (some "INCOME" : Option String) = some v → t.type = v)) ∧
    (get_transactions c6State 0 100 none none (some 1) (some "INCOME")).Pairwise
      (fun a b => dle b.transaction_date a.transaction_date = true) ∧
    (get_transactions c6State 0 100 none none (some 1) (some "INCOME")).length ≤ 100 :=
  list_transactions_spec c6State 0 100 none none (some 1) (some "INCOME")
    (by norm_num) (by norm_num) (by simp) (by simp)

/-! ### Claim C8: partial transaction update. -/

lemma updateFirstTx_getElem (l : List Transaction) (tid : Int)
    (u : TransactionUpdate) :
    ∀ (i : Nat) (x : Transaction), l[i]? = some x → ¬ (x.transaction_id = tid) →
      (updateFirstTx l tid u)[i]? = some x := by
  induction l with
  | nil =>
      intro i x hx
      simp at hx
  | cons t ts ih =>
      intro i x hx hne
      by_cases h : t.transaction_id = tid
      · rw [show updateFirstTx (t :: ts) tid u = applyUpd u t :: ts by
          simp [updateFirstTx, h]]
        cases i with
        | zero =>
            simp only [List.getElem?_cons_zero, Option.some.injEq] at hx
            exact absurd h (hx ▸ hne)
        | succ n => simpa using hx
      · rw [show updateFirstTx (t :: ts) tid u = t :: updateFirstTx ts tid u by
          simp [updateFirstTx, h]]
        cases i with
        | zero => simpa using hx
        | succ n =>
            simp only [List.getElem?_cons_succ] at hx ⊢
            exact ih n x hx hne

/-- Claim C8: `update_transaction` fails with a 404 and an unchanged store
when the id is absent; fails with a 400 and an unchanged store when a
supplied `category_id` does not resolve; and otherwise replaces exactly
the found row by its update, where every supplied field takes the supplied
value, every unsupplied field keeps its prior value, and every other row
(any row whose id differs) is left in place untouched. -/
theorem update_transaction_spec (s : State) (tid : Int) (u : TransactionUpdate) :
    (s.transactions.find? (fun t => t.transaction_id == tid) = none →
      update_transaction s tid u
        = (.error ⟨404, "Transaction with ID " ++ toString tid ++ " not found"⟩, s)) ∧
    (∀ t, s.transactions.find? (fun t => t.transaction_id == tid) = some t →
      ∀ c, u.category_id = some c → get_category s c = none →
      update_transaction s tid u
        = (.error ⟨400, "Category with ID " ++ toString c ++ " not found"⟩, s)) ∧
    (∀ t, s.transactions.find? (fun t => t.transaction_id == tid) = some t →
      (∀ c, u.category_id = some c → (get_category s c).isSome) →
      update_transaction s tid u
        = (.ok (applyUpd u t),
           { s with transactions := updateFirstTx s.transactions tid u }) ∧
      (u.amount = none → (applyUpd u t).amount = t.amount) ∧
      (∀ v, u.amount = some v → (applyUpd u t).amount = v) ∧
      (u.type = none → (applyUpd u t).type = t.type) ∧
      (∀ v, u.type = some v → (applyUpd u t).type = v) ∧
      (u.description = none → (applyUpd u t).description = t.description) ∧
      (∀ v, u.description = some v → (applyUpd u t).description = v) ∧
      (u.transaction_date = none →
        (applyUpd u t).transaction_date = t.transaction_date) ∧
      (∀ v, u.transaction_date = some v → (applyUpd u t).transaction_date = v) ∧
      (u.category_id = none → (applyUpd u t).category_id = t.category_id) ∧
      (∀ v, u.category_id = some v → (applyUpd u t).category_id = v) ∧
      (∀ (i : Nat) (x : Transaction), s.transactions[i]? = some x →
        ¬ (x.transaction_id = tid) →
        (updateFirstTx s.transactions tid u)[i]? = some x)) := by
  refine ⟨?_, ?_, ?_⟩
  · intro hf
    simp [update_transaction, hf]
  · intro t hf c hc hcat
    simp [update_transaction, hf, hc, hcat]
  · intro t hf hres
    refine ⟨?_, ?_, ?_, ?_, ?_, ?_, ?_, ?_, ?_, ?_, ?_, ?_⟩
    · cases hc : u.category_id with
      | none => simp [update_transaction, hf, hc]
      | some c =>
          have hsome := hres c hc
          cases hcat : get_category s c with
          | none =>
              rw [hcat] at hsome
              simp at hsome
          | some cat => simp [update_transaction, hf, hc, hcat]
    · intro h
      simp [applyUpd, h]
    · intro v h
      simp [applyUpd, h]
    · intro h
      simp [applyUpd, h]
    · intro v h
      simp [applyUpd, h]
    · intro h
      simp [applyUpd, h]
    · intro v h
      simp [applyUpd, h]
    · intro h
      simp [applyUpd, h]
    · intro v h
      simp [applyUpd, h]
    · intro h
      simp [applyUpd, h]
    · intro v h
      simp [applyUpd, h]
    · exact updateFirstTx_getElem s.transactions tid u

/-- The transaction row of the C8 witness store. -/
def c8Tx : Transaction := ⟨1, 5, "EXPENSE", none, ⟨2025, 4, 1⟩, 1⟩

/-- Store with two EXPENSE categories and one transaction. -/
def c8State : State :=
  ⟨[], [⟨1, "Food", "EXPENSE"⟩, ⟨2, "Travel", "EXPENSE"⟩], [c8Tx], [], 1, 3, 2, 1⟩

/-- A partial update supplying only `amount` and `category_id`. -/
def c8Upd : TransactionUpdate := ⟨some 7, none, none, none, some 2⟩

/-- Witness for `update_transaction_spec`: the happy path at a concrete
store, transaction and partial update. -/
theorem update_transaction_spec_witness :
    update_transaction c8State 1 c8Upd
      = (.ok (applyUpd c8Upd c8Tx),
         { c8State with transactions := updateFirstTx c8State.transactions 1 c8Upd }) :=
  ((update_transaction_spec c8State 1 c8Upd).2.2 c8Tx rfl
    (fun c hc => by
      simp [c8Upd] at hc
      subst hc
      rfl)).1

end ExpenseTracker
